import Mathlib

/-!
Shallow embedding of the grainlify escrow contracts.

`BountyEscrow` embeds `src/contracts/bounty_escrow/contracts/escrow/src/lib.rs`:
the contract state (instance storage keys `Admin`, `Token`, `ReentrancyGuard`
and the persistent `Escrow(bounty_id)` records) is an explicit record, each
contract entry point is a Lean function on that state, and the Soroban host
semantics are made explicit:

* `require_auth` on an address succeeds iff that address is in the set of
  addresses that authorized the invocation, and otherwise aborts the whole
  invocation with a host trap (not a typed contract error);
* a `panic!` or a failed `unwrap` likewise aborts with a trap;
* the ledger is transactional: an invocation that does not return `Ok`
  has all of its storage writes discarded (`commit`).

Every run also produces a trace of the storage writes, external transfer
calls and event emissions, in the order the Rust code performs them, so that
ordering properties (status persisted before the external transfer) can be
stated.

`ProgramEscrow` models the batch-disbursement variant; its implementation
file is not among the sources, so it is modelled from the spec (see the doc
comments there).
-/

namespace BountyEscrow

/-- Escrow status, from `enum EscrowStatus` in lib.rs. -/
inductive EscrowStatus where
  | Locked
  | Released
  | Refunded
  deriving DecidableEq, Repr

/-- Escrow record, from `struct Escrow` in lib.rs. Addresses are modelled
as natural numbers. -/
structure Escrow where
  depositor : Nat
  amount : Int
  status : EscrowStatus
  deadline : Nat
  deriving DecidableEq, Repr

/-- Typed contract errors, from `enum Error` in lib.rs. -/
inductive Error where
  | AlreadyInitialized
  | NotInitialized
  | BountyExists
  | BountyNotFound
  | FundsNotLocked
  | DeadlineNotPassed
  | Unauthorized
  | InvalidAmount
  | InvalidDeadline
  deriving DecidableEq, Repr

/-- A fatal abort of the invocation: the reentrancy `panic!`, a failed
`require_auth`, or a failed `unwrap` of a missing storage value. These are
host traps, distinct from every typed `Error`. -/
inductive TrapKind where
  | reentrancy
  | authRequired
  | missingValue
  deriving DecidableEq, Repr

/-- Result of one invocation of a contract entry point. -/
inductive Outcome where
  | ok
  | err : Error → Outcome
  | trap : TrapKind → Outcome
  deriving DecidableEq, Repr

/-- The contract's storage: `DataKey::Admin`, `DataKey::Token`
(instance storage, absent until `init`), the persistent
`DataKey::Escrow(bounty_id)` records as an association list, and the
`DataKey::ReentrancyGuard` flag. -/
structure ContractState where
  admin : Option Nat
  token : Option Nat
  escrows : List (Nat × Escrow)
  guard : Bool
  deriving DecidableEq, Repr

/-- The invocation context supplied by the Soroban host: the contract's own
address (`env.current_contract_address()`), the ledger clock
(`env.ledger().timestamp()`) and the set of addresses that have authorized
this invocation (what `require_auth` checks). -/
structure Ctx where
  self : Nat
  now : Nat
  auths : List Nat
  deriving DecidableEq, Repr

/-- Observable actions of one run, in program order: storage writes to the
guard and to escrow records, calls to the external token contract
(`client.transfer`), and event emissions. -/
inductive Event where
  | setGuard
  | removeGuard
  | setEscrow (bountyId : Nat) (e : Escrow)
  | transfer (src : Nat) (dst : Nat) (amount : Int)
  | emit
  deriving DecidableEq, Repr

/-- Raw result of running an entry point body: the outcome, the storage
state at the end of the body (before the ledger commits or rolls back), and
the trace of actions performed. -/
structure RunResult where
  outcome : Outcome
  state : ContractState
  trace : List Event
  deriving DecidableEq, Repr

/-- Lookup of `env.storage().persistent().get(&DataKey::Escrow(id))`. -/
def lookupEscrow : List (Nat × Escrow) → Nat → Option Escrow
  | [], _ => none
  | (k, e) :: rest, id => if k = id then some e else lookupEscrow rest id

/-- Write of `env.storage().persistent().set(&DataKey::Escrow(id), &e)`. -/
def storeEscrow : List (Nat × Escrow) → Nat → Escrow → List (Nat × Escrow)
  | [], id, e => [(id, e)]
  | (k, e0) :: rest, id, e =>
      if k = id then (id, e) :: rest else (k, e0) :: storeEscrow rest id e

/-- `init(env, admin, token)` from lib.rs: fails `AlreadyInitialized` when
`DataKey::Admin` is present, otherwise stores both addresses. -/
def init (s : ContractState) (admin : Nat) (token : Nat) :
    Outcome × ContractState :=
  if s.admin.isSome then (.err .AlreadyInitialized, s)
  else (.ok, { s with admin := some admin, token := some token })

/-- `lock_funds(env, depositor, bounty_id, amount, deadline)` from lib.rs,
following the source order exactly: `depositor.require_auth()`; reentrancy
guard check and set; `amount <= 0` check; `deadline <= now` check; `Admin`
presence check; duplicate bounty check; token `unwrap`; transfer from the
depositor to the contract; record creation; event; guard removal. -/
def lock_funds (ctx : Ctx) (s : ContractState) (depositor : Nat)
    (bounty_id : Nat) (amount : Int) (deadline : Nat) : RunResult :=
  if depositor ∈ ctx.auths then
    if s.guard then
      ⟨.trap .reentrancy, s, []⟩
    else if amount ≤ 0 then
      ⟨.err .InvalidAmount, { s with guard := true }, [.setGuard]⟩
    else if deadline ≤ ctx.now then
      ⟨.err .InvalidDeadline, { s with guard := true }, [.setGuard]⟩
    else if s.admin = none then
      ⟨.err .NotInitialized, { s with guard := true }, [.setGuard]⟩
    else if (lookupEscrow s.escrows bounty_id).isSome then
      ⟨.err .BountyExists, { s with guard := true }, [.setGuard]⟩
    else
      match s.token with
      | none => ⟨.trap .missingValue, { s with guard := true }, [.setGuard]⟩
      | some _tok =>
          ⟨.ok,
           { s with guard := false,
                    escrows := storeEscrow s.escrows bounty_id
                      ⟨depositor, amount, .Locked, deadline⟩ },
           [.setGuard, .transfer depositor ctx.self amount,
            .setEscrow bounty_id ⟨depositor, amount, .Locked, deadline⟩,
            .emit, .removeGuard]⟩
  else ⟨.trap .authRequired, s, []⟩

/-- `release_funds(env, bounty_id, contributor)` from lib.rs, in source
order: guard check and set; `Admin` presence check; `admin.require_auth()`;
bounty existence check; `Locked` status check; token `unwrap`; status set to
`Released` and persisted; transfer from the contract to the contributor;
event; guard removal. -/
def release_funds (ctx : Ctx) (s : ContractState) (bounty_id : Nat)
    (contributor : Nat) : RunResult :=
  if s.guard then
    ⟨.trap .reentrancy, s, []⟩
  else
    match s.admin with
    | none => ⟨.err .NotInitialized, { s with guard := true }, [.setGuard]⟩
    | some admin =>
      if admin ∈ ctx.auths then
        match lookupEscrow s.escrows bounty_id with
        | none => ⟨.err .BountyNotFound, { s with guard := true }, [.setGuard]⟩
        | some escrow =>
          if escrow.status ≠ .Locked then
            ⟨.err .FundsNotLocked, { s with guard := true }, [.setGuard]⟩
          else
            match s.token with
            | none => ⟨.trap .missingValue, { s with guard := true }, [.setGuard]⟩
            | some _tok =>
                ⟨.ok,
                 { s with guard := false,
                          escrows := storeEscrow s.escrows bounty_id
                            { escrow with status := .Released } },
                 [.setGuard,
                  .setEscrow bounty_id { escrow with status := .Released },
                  .transfer ctx.self contributor escrow.amount,
                  .emit, .removeGuard]⟩
      else ⟨.trap .authRequired, { s with guard := true }, [.setGuard]⟩

/-- `refund(env, bounty_id)` from lib.rs, in source order: guard check and
set; bounty existence check; `Locked` status check; `now < deadline` check;
token `unwrap`; status set to `Refunded` and persisted; transfer from the
contract back to the depositor; event; guard removal. No authentication and
no initialization check. -/
def refund (ctx : Ctx) (s : ContractState) (bounty_id : Nat) : RunResult :=
  if s.guard then
    ⟨.trap .reentrancy, s, []⟩
  else
    match lookupEscrow s.escrows bounty_id with
    | none => ⟨.err .BountyNotFound, { s with guard := true }, [.setGuard]⟩
    | some escrow =>
      if escrow.status ≠ .Locked then
        ⟨.err .FundsNotLocked, { s with guard := true }, [.setGuard]⟩
      else if ctx.now < escrow.deadline then
        ⟨.err .DeadlineNotPassed, { s with guard := true }, [.setGuard]⟩
      else
        match s.token with
        | none => ⟨.trap .missingValue, { s with guard := true }, [.setGuard]⟩
        | some _tok =>
            ⟨.ok,
             { s with guard := false,
                      escrows := storeEscrow s.escrows bounty_id
                        { escrow with status := .Refunded } },
             [.setGuard,
              .setEscrow bounty_id { escrow with status := .Refunded },
              .transfer ctx.self escrow.depositor escrow.amount,
              .emit, .removeGuard]⟩

/-- `get_escrow_info(env, bounty_id)` from lib.rs: read-only lookup. -/
def get_escrow_info (s : ContractState) (bounty_id : Nat) :
    Except Error Escrow :=
  match lookupEscrow s.escrows bounty_id with
  | none => .error .BountyNotFound
  | some e => .ok e

/-- Ledger commit semantics (spec section 5): an invocation that does not
return `Ok` has every one of its writes, the guard flag included,
discarded; only a successful invocation's final state is kept. -/
def commit (s : ContractState) (r : RunResult) : Outcome × ContractState :=
  match r.outcome with
  | .ok => (.ok, r.state)
  | o => (o, s)

/-- `lock_funds` as observed across the invocation boundary. -/
def lock_funds_tx (ctx : Ctx) (s : ContractState) (depositor : Nat)
    (bounty_id : Nat) (amount : Int) (deadline : Nat) :
    Outcome × ContractState :=
  commit s (lock_funds ctx s depositor bounty_id amount deadline)

/-- `release_funds` as observed across the invocation boundary. -/
def release_funds_tx (ctx : Ctx) (s : ContractState) (bounty_id : Nat)
    (contributor : Nat) : Outcome × ContractState :=
  commit s (release_funds ctx s bounty_id contributor)

/-- `refund` as observed across the invocation boundary. -/
def refund_tx (ctx : Ctx) (s : ContractState) (bounty_id : Nat) :
    Outcome × ContractState :=
  commit s (refund ctx s bounty_id)

/-- One arbitrary committed invocation of the contract, used to state
properties over every possible subsequent call. -/
inductive Op where
  | opInit (admin : Nat) (token : Nat)
  | opLock (ctx : Ctx) (depositor : Nat) (bountyId : Nat)
      (amount : Int) (deadline : Nat)
  | opRelease (ctx : Ctx) (bountyId : Nat) (contributor : Nat)
  | opRefund (ctx : Ctx) (bountyId : Nat)

/-- The committed state after one arbitrary invocation. -/
def applyOp (s : ContractState) : Op → ContractState
  | .opInit a t => (init s a t).2
  | .opLock ctx d id amount deadline => (lock_funds_tx ctx s d id amount deadline).2
  | .opRelease ctx id c => (release_funds_tx ctx s id c).2
  | .opRefund ctx id => (refund_tx ctx s id).2

end BountyEscrow

namespace ProgramEscrow

/-- Modelled from the spec: the Program Escrow Variant's implementation file
(`src/contracts/program-escrow/src/lib.rs`) is not among the provided
sources, only its tests; this aggregate follows the Program Aggregate of
spec section 3: program id, admin, token, cumulative `totalFunds` and the
running `remainingBalance`. -/
structure ProgramAggregate where
  programId : String
  admin : Nat
  token : Nat
  totalFunds : Int
  remainingBalance : Int
  deriving DecidableEq, Repr

/-- Validation failures of the batch-disbursement operations, per spec
section 4.5 (mismatched or empty lists, a non-positive entry, or an
insufficient remaining balance). -/
inductive PayoutError where
  | lengthMismatch
  | emptyBatch
  | nonPositiveAmount
  | insufficientBalance
  deriving DecidableEq, Repr

/-- Sum of the per-entry payout amounts. -/
def sumAmounts : List Int → Int
  | [] => 0
  | a :: rest => a + sumAmounts rest

/-- Modelled from the spec: `batchPayout(programId, recipients[], amounts[])`
of spec section 4.5. Recipients and amounts must be equal length and
non-empty; each entry must be positive; the remaining balance must cover the
sum; on success every recipient is paid and `remainingBalance` decreases by
the total. A batch is all-or-nothing: any failure returns an error and the
caller's aggregate is untouched. -/
def batch_payout (p : ProgramAggregate) (recipients : List Nat)
    (amounts : List Int) : Except PayoutError ProgramAggregate :=
  if recipients.length ≠ amounts.length then .error .lengthMismatch
  else if recipients.isEmpty then .error .emptyBatch
  else if amounts.any (· ≤ 0) then .error .nonPositiveAmount
  else if p.remainingBalance < sumAmounts amounts then .error .insufficientBalance
  else .ok { p with remainingBalance := p.remainingBalance - sumAmounts amounts }

end ProgramEscrow

namespace BountyEscrow

theorem lookupEscrow_storeEscrow_self (l : List (Nat × Escrow)) (k : Nat)
    (e : Escrow) : lookupEscrow (storeEscrow l k e) k = some e := by
  induction l with
  | nil => simp [storeEscrow, lookupEscrow]
  | cons p rest ih =>
      obtain ⟨k0, e0⟩ := p
      by_cases h : k0 = k
      · subst h; simp [storeEscrow, lookupEscrow]
      · simp [storeEscrow, lookupEscrow, h, ih]

theorem lookupEscrow_storeEscrow_ne (l : List (Nat × Escrow)) (k k' : Nat)
    (e : Escrow) (h : k' ≠ k) :
    lookupEscrow (storeEscrow l k e) k' = lookupEscrow l k' := by
  induction l with
  | nil =>
      simp only [storeEscrow, lookupEscrow]
      rw [if_neg (fun hc => h hc.symm)]
  | cons p rest ih =>
      obtain ⟨k0, e0⟩ := p
      by_cases hk : k0 = k
      · subst hk
        simp only [storeEscrow, if_pos rfl, lookupEscrow]
        rw [if_neg (fun hc => h hc.symm), if_neg (fun hc => h hc.symm)]
      · simp only [storeEscrow, if_neg hk, lookupEscrow]
        by_cases hk' : k0 = k'
        · simp [hk']
        · simp [hk', ih]

theorem commit_ok (s : ContractState) (r : RunResult) (h : r.outcome = .ok) :
    commit s r = (.ok, r.state) := by
  simp [commit, h]

theorem commit_not_ok (s : ContractState) (r : RunResult)
    (h : r.outcome ≠ .ok) : commit s r = (r.outcome, s) := by
  cases ho : r.outcome <;> simp [commit, ho] at h ⊢

/-- A successful `lock_funds` run came through every check: the bounty id
was fresh, and the final raw state and trace are exactly the ones of the
success branch. -/
theorem lock_funds_ok_state (ctx : Ctx) (s : ContractState) (dep id : Nat)
    (amount : Int) (deadline : Nat)
    (h : (lock_funds ctx s dep id amount deadline).outcome = .ok) :
    lookupEscrow s.escrows id = none ∧
    (lock_funds ctx s dep id amount deadline).state
      = { s with guard := false,
                 escrows := storeEscrow s.escrows id
                   ⟨dep, amount, .Locked, deadline⟩ } ∧
    (lock_funds ctx s dep id amount deadline).trace
      = [.setGuard, .transfer dep ctx.self amount,
         .setEscrow id ⟨dep, amount, .Locked, deadline⟩, .emit, .removeGuard] := by
  by_cases hauth : dep ∈ ctx.auths
  · by_cases hg : s.guard
    · simp [lock_funds, hauth, hg] at h
    · by_cases hamt : amount ≤ 0
      · simp [lock_funds, hauth, hg, hamt] at h
      · by_cases hdl : deadline ≤ ctx.now
        · simp [lock_funds, hauth, hg, hamt, hdl] at h
        · by_cases hadm : s.admin = none
          · simp [lock_funds, hauth, hg, hamt, hdl, hadm] at h
          · cases hfresh : lookupEscrow s.escrows id with
            | some e => simp [lock_funds, hauth, hg, hamt, hdl, hadm, hfresh] at h
            | none =>
                cases htok : s.token with
                | none => simp [lock_funds, hauth, hg, hamt, hdl, hadm, hfresh, htok] at h
                | some tok =>
                    refine ⟨rfl, ?_, ?_⟩ <;>
                      simp [lock_funds, hauth, hg, hamt, hdl, hadm, hfresh, htok]
  · simp [lock_funds, hauth] at h

/-- A successful `release_funds` run found a `Locked` record and its final
raw state and trace are exactly the ones of the success branch: the record
is persisted as `Released` (all other fields untouched) and that write
precedes the transfer in the trace. -/
theorem release_funds_ok_state (ctx : Ctx) (s : ContractState) (id c : Nat)
    (h : (release_funds ctx s id c).outcome = .ok) :
    ∃ e, lookupEscrow s.escrows id = some e ∧ e.status = .Locked ∧
      (release_funds ctx s id c).state
        = { s with guard := false,
                   escrows := storeEscrow s.escrows id
                     { e with status := .Released } } ∧
      (release_funds ctx s id c).trace
        = [.setGuard, .setEscrow id { e with status := .Released },
           .transfer ctx.self c e.amount, .emit, .removeGuard] := by
  by_cases hg : s.guard
  · simp [release_funds, hg] at h
  · cases hadm : s.admin with
    | none => simp [release_funds, hg, hadm] at h
    | some adm =>
        by_cases hin : adm ∈ ctx.auths
        · cases hl : lookupEscrow s.escrows id with
          | none => simp [release_funds, hg, hadm, hin, hl] at h
          | some e =>
              by_cases hst : e.status = .Locked
              · cases htok : s.token with
                | none => simp [release_funds, hg, hadm, hin, hl, hst, htok] at h
                | some tok =>
                    refine ⟨e, rfl, hst, ?_, ?_⟩ <;>
                      simp [release_funds, hg, hadm, hin, hl, hst, htok]
              · simp [release_funds, hg, hadm, hin, hl, hst] at h
        · simp [release_funds, hg, hadm, hin] at h

/-- A successful `refund` run found a `Locked` record past its deadline and
its final raw state and trace are exactly the ones of the success branch:
the record is persisted as `Refunded` (all other fields untouched) and that
write precedes the transfer back to the depositor in the trace. -/
theorem refund_ok_state (ctx : Ctx) (s : ContractState) (id : Nat)
    (h : (refund ctx s id).outcome = .ok) :
    ∃ e, lookupEscrow s.escrows id = some e ∧ e.status = .Locked ∧
      e.deadline ≤ ctx.now ∧
      (refund ctx s id).state
        = { s with guard := false,
                   escrows := storeEscrow s.escrows id
                     { e with status := .Refunded } } ∧
      (refund ctx s id).trace
        = [.setGuard, .setEscrow id { e with status := .Refunded },
           .transfer ctx.self e.depositor e.amount, .emit, .removeGuard] := by
  by_cases hg : s.guard
  · simp [refund, hg] at h
  · cases hl : lookupEscrow s.escrows id with
    | none => simp [refund, hg, hl] at h
    | some e =>
        by_cases hst : e.status = .Locked
        · by_cases hdl : ctx.now < e.deadline
          · simp [refund, hg, hl, hst, hdl] at h
          · cases htok : s.token with
            | none => simp [refund, hg, hl, hst, hdl, htok] at h
            | some tok =>
                refine ⟨e, rfl, hst, not_lt.mp hdl, ?_, ?_⟩ <;>
                  simp [refund, hg, hl, hst, hdl, htok]
        · simp [refund, hg, hl, hst] at h

/-- The committed escrow map after a `lock_funds` invocation: either
untouched (any failure) or extended at a previously free bounty id. -/
theorem lock_funds_tx_escrows (ctx : Ctx) (s : ContractState) (dep id : Nat)
    (amount : Int) (deadline : Nat) :
    (lock_funds_tx ctx s dep id amount deadline).2.escrows = s.escrows ∨
    (lookupEscrow s.escrows id = none ∧
     (lock_funds_tx ctx s dep id amount deadline).2.escrows
       = storeEscrow s.escrows id ⟨dep, amount, .Locked, deadline⟩) := by
  by_cases h : (lock_funds ctx s dep id amount deadline).outcome = .ok
  · obtain ⟨hfresh, hstate, -⟩ := lock_funds_ok_state ctx s dep id amount deadline h
    right
    refine ⟨hfresh, ?_⟩
    unfold lock_funds_tx
    rw [commit_ok _ _ h, hstate]
  · left
    unfold lock_funds_tx
    rw [commit_not_ok _ _ h]

/-- The committed escrow map after a `release_funds` invocation: either
untouched (any failure) or with one previously `Locked` record rewritten to
`Released`. -/
theorem release_funds_tx_escrows (ctx : Ctx) (s : ContractState) (id c : Nat) :
    (release_funds_tx ctx s id c).2.escrows = s.escrows ∨
    ∃ e, lookupEscrow s.escrows id = some e ∧ e.status = .Locked ∧
      (release_funds_tx ctx s id c).2.escrows
        = storeEscrow s.escrows id { e with status := .Released } := by
  by_cases h : (release_funds ctx s id c).outcome = .ok
  · obtain ⟨e, hl, hst, hstate, -⟩ := release_funds_ok_state ctx s id c h
    right
    refine ⟨e, hl, hst, ?_⟩
    unfold release_funds_tx
    rw [commit_ok _ _ h, hstate]
  · left
    unfold release_funds_tx
    rw [commit_not_ok _ _ h]

/-- The committed escrow map after a `refund` invocation: either untouched
(any failure) or with one previously `Locked` record rewritten to
`Refunded`. -/
theorem refund_tx_escrows (ctx : Ctx) (s : ContractState) (id : Nat) :
    (refund_tx ctx s id).2.escrows = s.escrows ∨
    ∃ e, lookupEscrow s.escrows id = some e ∧ e.status = .Locked ∧
      (refund_tx ctx s id).2.escrows
        = storeEscrow s.escrows id { e with status := .Refunded } := by
  by_cases h : (refund ctx s id).outcome = .ok
  · obtain ⟨e, hl, hst, -, hstate, -⟩ := refund_ok_state ctx s id h
    right
    refine ⟨e, hl, hst, ?_⟩
    unfold refund_tx
    rw [commit_ok _ _ h, hstate]
  · left
    unfold refund_tx
    rw [commit_not_ok _ _ h]

/-- `init` never touches the escrow map. -/
theorem init_escrows (s : ContractState) (a t : Nat) :
    (init s a t).2.escrows = s.escrows := by
  unfold init
  split <;> rfl

/-- A record that is not `Locked` is preserved verbatim by every committed
invocation: failures roll back, and successes only ever rewrite a record
that was `Locked`. -/
theorem terminal_record_stable (s : ContractState) (id : Nat) (e : Escrow)
    (hl : lookupEscrow s.escrows id = some e) (hterm : e.status ≠ .Locked)
    (op : Op) : lookupEscrow (applyOp s op).escrows id = some e := by
  cases op with
  | opInit a t =>
      show lookupEscrow (init s a t).2.escrows id = some e
      rw [init_escrows]; exact hl
  | opLock ctx d id' amount deadline =>
      show lookupEscrow (lock_funds_tx ctx s d id' amount deadline).2.escrows id = some e
      rcases lock_funds_tx_escrows ctx s d id' amount deadline with hsame | ⟨hfresh, hstore⟩
      · rw [hsame]; exact hl
      · have hne : id ≠ id' := by
          intro hc; rw [hc, hfresh] at hl; exact Option.noConfusion hl
        rw [hstore, lookupEscrow_storeEscrow_ne _ _ _ _ hne]; exact hl
  | opRelease ctx id' c =>
      show lookupEscrow (release_funds_tx ctx s id' c).2.escrows id = some e
      rcases release_funds_tx_escrows ctx s id' c with hsame | ⟨e', hl', hst', hstore⟩
      · rw [hsame]; exact hl
      · have hne : id ≠ id' := by
          intro hc
          rw [hc, hl'] at hl
          have hee : e' = e := Option.some_inj.mp hl
          exact hterm (hee ▸ hst')
        rw [hstore, lookupEscrow_storeEscrow_ne _ _ _ _ hne]; exact hl
  | opRefund ctx id' =>
      show lookupEscrow (refund_tx ctx s id').2.escrows id = some e
      rcases refund_tx_escrows ctx s id' with hsame | ⟨e', hl', hst', hstore⟩
      · rw [hsame]; exact hl
      · have hne : id ≠ id' := by
          intro hc
          rw [hc, hl'] at hl
          have hee : e' = e := Option.some_inj.mp hl
          exact hterm (hee ▸ hst')
        rw [hstore, lookupEscrow_storeEscrow_ne _ _ _ _ hne]; exact hl

/-- A record that is not `Locked` survives every sequence of committed
invocations verbatim. -/
theorem terminal_record_stable_fold (s : ContractState) (id : Nat)
    (e : Escrow) (hl : lookupEscrow s.escrows id = some e)
    (hterm : e.status ≠ .Locked) (ops : List Op) :
    lookupEscrow (ops.foldl applyOp s).escrows id = some e := by
  induction ops generalizing s with
  | nil => exact hl
  | cons op rest ih =>
      exact ih (applyOp s op) (terminal_record_stable s id e hl hterm op)

/-- C5: on an initialized contract, for every authenticated depositor, fresh
obligation id, positive amount and deadline strictly after the current clock
reading, `lock_funds` succeeds and `get_escrow_info` on the committed state
returns a record with status `Locked` and exactly the input depositor,
amount and deadline. -/
theorem lock_funds_then_get_escrow_info (ctx : Ctx) (s : ContractState)
    (dep id : Nat) (amount : Int) (deadline : Nat) (tok : Nat)
    (hauth : dep ∈ ctx.auths) (hg : s.guard = false)
    (hadm : s.admin.isSome) (htok : s.token = some tok)
    (hamt : 0 < amount) (hdl : ctx.now < deadline)
    (hfresh : lookupEscrow s.escrows id = none) :
    (lock_funds ctx s dep id amount deadline).outcome = .ok ∧
    get_escrow_info (lock_funds_tx ctx s dep id amount deadline).2 id
      = .ok ⟨dep, amount, .Locked, deadline⟩ := by
  have hadm' : ¬ s.admin = none := by
    cases h : s.admin <;> simp [h] at hadm ⊢
  unfold lock_funds_tx lock_funds commit
  simp [hauth, hg, not_le.mpr hamt, not_le.mpr hdl, hadm', hfresh, htok,
        get_escrow_info, lookupEscrow_storeEscrow_self]

/-- Witness for C5 at a concrete initialized state and input. -/
theorem lock_funds_then_get_escrow_info_witness :
    (lock_funds ⟨0, 10, [3]⟩ ⟨some 1, some 2, [], false⟩ 3 42 1000 110).outcome
      = .ok ∧
    get_escrow_info
      (lock_funds_tx ⟨0, 10, [3]⟩ ⟨some 1, some 2, [], false⟩ 3 42 1000 110).2 42
      = .ok ⟨3, 1000, .Locked, 110⟩ :=
  lock_funds_then_get_escrow_info ⟨0, 10, [3]⟩ ⟨some 1, some 2, [], false⟩
    3 42 1000 110 2 (by decide) (by decide) (by decide) (by decide)
    (by decide) (by decide) (by decide)

/-- C4: for a `Locked` record, `refund` succeeds when the clock reading
equals the record's deadline, and fails with `DeadlineNotPassed` (leaving
the committed state unchanged) when the clock reading is strictly below the
deadline, such as deadline - 1: the deadline bound is inclusive. -/
theorem refund_deadline_inclusive (s : ContractState) (id : Nat) (e : Escrow)
    (self : Nat) (auths : List Nat) (atDl : Nat) (beforeDl : Nat) (tok : Nat)
    (hg : s.guard = false) (hl : lookupEscrow s.escrows id = some e)
    (hst : e.status = .Locked) (htok : s.token = some tok)
    (hAt : atDl = e.deadline) (hBefore : beforeDl + 1 = e.deadline) :
    (refund ⟨self, atDl, auths⟩ s id).outcome = .ok ∧
    (refund ⟨self, beforeDl, auths⟩ s id).outcome = .err .DeadlineNotPassed ∧
    refund_tx ⟨self, beforeDl, auths⟩ s id = (.err .DeadlineNotPassed, s) := by
  have hnl : ¬ (atDl < e.deadline) := by omega
  have hlt : beforeDl < e.deadline := by omega
  unfold refund_tx refund commit
  simp [hg, hl, hst, htok, hnl, hlt]

/-- Witness for C4: a locked record with deadline 10, refunded at clock 10
and rejected at clock 9. -/
theorem refund_deadline_inclusive_witness :
    (refund ⟨0, 10, []⟩
      ⟨some 1, some 2, [(7, ⟨4, 500, .Locked, 10⟩)], false⟩ 7).outcome = .ok ∧
    (refund ⟨0, 9, []⟩
      ⟨some 1, some 2, [(7, ⟨4, 500, .Locked, 10⟩)], false⟩ 7).outcome
      = .err .DeadlineNotPassed ∧
    refund_tx ⟨0, 9, []⟩
      ⟨some 1, some 2, [(7, ⟨4, 500, .Locked, 10⟩)], false⟩ 7
      = (.err .DeadlineNotPassed,
         ⟨some 1, some 2, [(7, ⟨4, 500, .Locked, 10⟩)], false⟩) :=
  refund_deadline_inclusive ⟨some 1, some 2, [(7, ⟨4, 500, .Locked, 10⟩)], false⟩
    7 ⟨4, 500, .Locked, 10⟩ 0 [] 10 9 2 (by decide) (by decide) (by decide)
    (by decide) (by decide) (by decide)

/-- C6 counterexample: on an uninitialized contract (no configuration ever
written), `lock_funds` with amount 0 fails with `InvalidAmount`, not
`NotInitialized`: the claim that the call fails `NotInitialized` regardless
of the amount and deadline arguments, with the configuration check first,
is false of the code, which checks the amount and the deadline before the
configuration. -/
theorem lock_funds_uninitialized_counterexample :
    (lock_funds ⟨0, 0, [3]⟩ ⟨none, none, [], false⟩ 3 1 0 100).outcome
      = .err .InvalidAmount ∧
    (lock_funds ⟨0, 0, [3]⟩ ⟨none, none, [], false⟩ 3 1 0 100).outcome
      ≠ .err .NotInitialized := by decide

/-- C6 amended: on an uninitialized contract, an authenticated `lock_funds`
call whose amount is positive and whose deadline is strictly after the
current clock reading fails with `NotInitialized` and leaves the committed
state unchanged; the amount and deadline checks precede the configuration
check, so a non-positive amount (resp. stale deadline) is reported as
`InvalidAmount` (resp. `InvalidDeadline`) even when uninitialized. -/
theorem lock_funds_uninitialized (ctx : Ctx) (s : ContractState)
    (dep id : Nat) (amount : Int) (deadline : Nat)
    (hauth : dep ∈ ctx.auths) (hg : s.guard = false) (hadm : s.admin = none)
    (hamt : 0 < amount) (hdl : ctx.now < deadline) :
    (lock_funds ctx s dep id amount deadline).outcome = .err .NotInitialized ∧
    lock_funds_tx ctx s dep id amount deadline = (.err .NotInitialized, s) := by
  unfold lock_funds_tx lock_funds commit
  simp [hauth, hg, not_le.mpr hamt, not_le.mpr hdl, hadm]

/-- Witness for C6 (amended) at a concrete uninitialized state. -/
theorem lock_funds_uninitialized_witness :
    (lock_funds ⟨0, 0, [3]⟩ ⟨none, none, [], false⟩ 3 1 100 50).outcome
      = .err .NotInitialized ∧
    lock_funds_tx ⟨0, 0, [3]⟩ ⟨none, none, [], false⟩ 3 1 100 50
      = (.err .NotInitialized, ⟨none, none, [], false⟩) :=
  lock_funds_uninitialized ⟨0, 0, [3]⟩ ⟨none, none, [], false⟩ 3 1 100 50
    (by decide) (by decide) (by decide) (by decide) (by decide)

/-- C7: a `lock_funds` call on an obligation id that already has a record
fails with `BountyExists`; its whole raw trace is the guard write, so no
transfer is issued and no record is written, and the committed state is the
pre-state, the first record in particular unchanged. -/
theorem lock_funds_duplicate_bounty (ctx : Ctx) (s : ContractState)
    (dep id : Nat) (amount : Int) (deadline : Nat) (e : Escrow) (adm : Nat)
    (hauth : dep ∈ ctx.auths) (hg : s.guard = false)
    (hadm : s.admin = some adm)
    (hamt : 0 < amount) (hdl : ctx.now < deadline)
    (hex : lookupEscrow s.escrows id = some e) :
    (lock_funds ctx s dep id amount deadline).outcome = .err .BountyExists ∧
    (lock_funds ctx s dep id amount deadline).trace = [.setGuard] ∧
    lock_funds_tx ctx s dep id amount deadline = (.err .BountyExists, s) ∧
    lookupEscrow (lock_funds_tx ctx s dep id amount deadline).2.escrows id
      = some e := by
  unfold lock_funds_tx lock_funds commit
  simp [hauth, hg, not_le.mpr hamt, not_le.mpr hdl, hadm, hex]

/-- Witness for C7: locking obligation 7 twice; the second call fails
`BountyExists` and the first record survives verbatim. -/
theorem lock_funds_duplicate_bounty_witness :
    (lock_funds ⟨0, 0, [3]⟩
      ⟨some 1, some 2, [(7, ⟨4, 500, .Locked, 10⟩)], false⟩ 3 7 100 50).outcome
      = .err .BountyExists ∧
    (lock_funds ⟨0, 0, [3]⟩
      ⟨some 1, some 2, [(7, ⟨4, 500, .Locked, 10⟩)], false⟩ 3 7 100 50).trace
      = [.setGuard] ∧
    lock_funds_tx ⟨0, 0, [3]⟩
      ⟨some 1, some 2, [(7, ⟨4, 500, .Locked, 10⟩)], false⟩ 3 7 100 50
      = (.err .BountyExists,
         ⟨some 1, some 2, [(7, ⟨4, 500, .Locked, 10⟩)], false⟩) ∧
    lookupEscrow (lock_funds_tx ⟨0, 0, [3]⟩
      ⟨some 1, some 2, [(7, ⟨4, 500, .Locked, 10⟩)], false⟩ 3 7 100 50).2.escrows 7
      = some ⟨4, 500, .Locked, 10⟩ :=
  lock_funds_duplicate_bounty ⟨0, 0, [3]⟩
    ⟨some 1, some 2, [(7, ⟨4, 500, .Locked, 10⟩)], false⟩ 3 7 100 50
    ⟨4, 500, .Locked, 10⟩ 1 (by decide) (by decide) (by decide) (by decide)
    (by decide) (by decide)

/-- C1 counterexample: on an initialized contract whose stored admin is
address 1, a `release_funds` invocation authorized only by address 3 aborts
with the `require_auth` host trap, not with the typed error `Unauthorized`
(which the code never constructs), and the Execution Guard flag has already
been written when the abort happens. -/
theorem release_funds_nonadmin_counterexample :
    (release_funds ⟨0, 0, [3]⟩
      ⟨some 1, some 2, [(42, ⟨3, 100, .Locked, 10⟩)], false⟩ 42 5).outcome
      = .trap .authRequired ∧
    (release_funds ⟨0, 0, [3]⟩
      ⟨some 1, some 2, [(42, ⟨3, 100, .Locked, 10⟩)], false⟩ 42 5).outcome
      ≠ .err .Unauthorized ∧
    .setGuard ∈ (release_funds ⟨0, 0, [3]⟩
      ⟨some 1, some 2, [(42, ⟨3, 100, .Locked, 10⟩)], false⟩ 42 5).trace := by
  decide

/-- C1 amended: on an initialized contract, a `release_funds` invocation
not authorized by the stored admin aborts with the fatal `require_auth`
trap (never the typed error `Unauthorized`); the Execution Guard flag is
the one storage write performed before the abort, and the abort discards
it, so the committed state is exactly the pre-state: no mutation of the
escrow record or of anything else persists. -/
theorem release_funds_nonadmin_traps (ctx : Ctx) (s : ContractState)
    (id c adm : Nat) (hg : s.guard = false) (hadm : s.admin = some adm)
    (hna : adm ∉ ctx.auths) :
    (release_funds ctx s id c).outcome = .trap .authRequired ∧
    (release_funds ctx s id c).trace = [.setGuard] ∧
    release_funds_tx ctx s id c = (.trap .authRequired, s) := by
  unfold release_funds_tx release_funds commit
  simp [hg, hadm, hna]

/-- Witness for C1 (amended): admin is 1, the invocation is authorized only
by 3. -/
theorem release_funds_nonadmin_traps_witness :
    (release_funds ⟨0, 0, [3]⟩
      ⟨some 1, some 2, [(42, ⟨3, 100, .Locked, 10⟩)], false⟩ 42 5).outcome
      = .trap .authRequired ∧
    (release_funds ⟨0, 0, [3]⟩
      ⟨some 1, some 2, [(42, ⟨3, 100, .Locked, 10⟩)], false⟩ 42 5).trace
      = [.setGuard] ∧
    release_funds_tx ⟨0, 0, [3]⟩
      ⟨some 1, some 2, [(42, ⟨3, 100, .Locked, 10⟩)], false⟩ 42 5
      = (.trap .authRequired,
         ⟨some 1, some 2, [(42, ⟨3, 100, .Locked, 10⟩)], false⟩) :=
  release_funds_nonadmin_traps ⟨0, 0, [3]⟩
    ⟨some 1, some 2, [(42, ⟨3, 100, .Locked, 10⟩)], false⟩ 42 5 1
    (by decide) (by decide) (by decide)

/-- C10: a successful `release_funds` (resp. `refund`) rewrites the escrow
record to exactly the pre-state record with only the status field changed
to `Released` (resp. `Refunded`): depositor, amount and deadline are
preserved verbatim. -/
theorem release_refund_modify_only_status (ctx : Ctx) (s : ContractState)
    (id c : Nat) (e : Escrow) (hl : lookupEscrow s.escrows id = some e) :
    ((release_funds ctx s id c).outcome = .ok →
      lookupEscrow (release_funds ctx s id c).state.escrows id
        = some { e with status := .Released }) ∧
    ((refund ctx s id).outcome = .ok →
      lookupEscrow (refund ctx s id).state.escrows id
        = some { e with status := .Refunded }) := by
  constructor
  · intro h
    obtain ⟨e', hl', hst', hstate, -⟩ := release_funds_ok_state ctx s id c h
    have hee : e' = e := by
      rw [hl'] at hl
      exact Option.some_inj.mp hl
    subst hee
    rw [hstate]
    exact lookupEscrow_storeEscrow_self _ _ _
  · intro h
    obtain ⟨e', hl', hst', -, hstate, -⟩ := refund_ok_state ctx s id h
    have hee : e' = e := by
      rw [hl'] at hl
      exact Option.some_inj.mp hl
    subst hee
    rw [hstate]
    exact lookupEscrow_storeEscrow_self _ _ _

/-- Witness for C10: obligation 7 is `⟨4, 500, Locked, 10⟩`; releasing keeps
`⟨4, 500, _, 10⟩` and flips only the status, and so does refunding. -/
theorem release_refund_modify_only_status_witness :
    lookupEscrow (release_funds ⟨0, 10, [1]⟩
      ⟨some 1, some 2, [(7, ⟨4, 500, .Locked, 10⟩)], false⟩ 7 5).state.escrows 7
      = some ⟨4, 500, .Released, 10⟩ ∧
    lookupEscrow (refund ⟨0, 10, [1]⟩
      ⟨some 1, some 2, [(7, ⟨4, 500, .Locked, 10⟩)], false⟩ 7).state.escrows 7
      = some ⟨4, 500, .Refunded, 10⟩ :=
  ⟨(release_refund_modify_only_status ⟨0, 10, [1]⟩
      ⟨some 1, some 2, [(7, ⟨4, 500, .Locked, 10⟩)], false⟩ 7 5
      ⟨4, 500, .Locked, 10⟩ (by decide)).1 (by decide),
   (release_refund_modify_only_status ⟨0, 10, [1]⟩
      ⟨some 1, some 2, [(7, ⟨4, 500, .Locked, 10⟩)], false⟩ 7 5
      ⟨4, 500, .Locked, 10⟩ (by decide)).2 (by decide)⟩

/-- C3: in every successful `release_funds` run the record is persisted
with status `Released` strictly before the external transfer call appears
in the trace, and in every successful `refund` run the record is persisted
with status `Refunded` strictly before the transfer: the record never reads
`Locked` at the moment the external transfer is issued. -/
theorem status_write_precedes_transfer (ctx : Ctx) (s : ContractState)
    (id c : Nat) :
    ((release_funds ctx s id c).outcome = .ok →
      ∃ pre suf dst amt e,
        (release_funds ctx s id c).trace
          = pre ++ Event.transfer ctx.self dst amt :: suf ∧
        Event.setEscrow id e ∈ pre ∧ e.status = .Released) ∧
    ((refund ctx s id).outcome = .ok →
      ∃ pre suf dst amt e,
        (refund ctx s id).trace
          = pre ++ Event.transfer ctx.self dst amt :: suf ∧
        Event.setEscrow id e ∈ pre ∧ e.status = .Refunded) := by
  constructor
  · intro h
    obtain ⟨e, -, -, -, htr⟩ := release_funds_ok_state ctx s id c h
    refine ⟨[.setGuard, .setEscrow id { e with status := .Released }],
            [.emit, .removeGuard], c, e.amount,
            { e with status := .Released }, ?_, ?_, rfl⟩
    · rw [htr]; rfl
    · simp
  · intro h
    obtain ⟨e, -, -, -, -, htr⟩ := refund_ok_state ctx s id h
    refine ⟨[.setGuard, .setEscrow id { e with status := .Refunded }],
            [.emit, .removeGuard], e.depositor, e.amount,
            { e with status := .Refunded }, ?_, ?_, rfl⟩
    · rw [htr]; rfl
    · simp

/-- Witness for C3 at a concrete state from which both a release and a
refund succeed. -/
theorem status_write_precedes_transfer_witness :
    (∃ pre suf dst amt e,
      (release_funds ⟨0, 10, [1]⟩
        ⟨some 1, some 2, [(7, ⟨4, 500, .Locked, 10⟩)], false⟩ 7 5).trace
        = pre ++ Event.transfer 0 dst amt :: suf ∧
      Event.setEscrow 7 e ∈ pre ∧ e.status = .Released) ∧
    (∃ pre suf dst amt e,
      (refund ⟨0, 10, [1]⟩
        ⟨some 1, some 2, [(7, ⟨4, 500, .Locked, 10⟩)], false⟩ 7).trace
        = pre ++ Event.transfer 0 dst amt :: suf ∧
      Event.setEscrow 7 e ∈ pre ∧ e.status = .Refunded) :=
  ⟨(status_write_precedes_transfer ⟨0, 10, [1]⟩
      ⟨some 1, some 2, [(7, ⟨4, 500, .Locked, 10⟩)], false⟩ 7 5).1 (by decide),
   (status_write_precedes_transfer ⟨0, 10, [1]⟩
      ⟨some 1, some 2, [(7, ⟨4, 500, .Locked, 10⟩)], false⟩ 7 5).2 (by decide)⟩

/-- When the guard is clear and the depositor is authenticated, the first
action of every `lock_funds` run is the guard write. -/
theorem lock_funds_trace_head (ctx : Ctx) (t : ContractState)
    (dep id : Nat) (amount : Int) (deadline : Nat)
    (hdep : dep ∈ ctx.auths) (ht : t.guard = false) :
    (lock_funds ctx t dep id amount deadline).trace.head? = some .setGuard := by
  by_cases hamt : amount ≤ 0
  · simp [lock_funds, hdep, ht, hamt]
  · by_cases hdl : deadline ≤ ctx.now
    · simp [lock_funds, hdep, ht, hamt, hdl]
    · by_cases hadm : t.admin = none
      · simp [lock_funds, hdep, ht, hamt, hdl, hadm]
      · cases hfresh : lookupEscrow t.escrows id with
        | some e => simp [lock_funds, hdep, ht, hamt, hdl, hadm, hfresh]
        | none =>
            cases htok : t.token with
            | none => simp [lock_funds, hdep, ht, hamt, hdl, hadm, hfresh, htok]
            | some tok => simp [lock_funds, hdep, ht, hamt, hdl, hadm, hfresh, htok]

/-- When the guard is clear, the first action of every `release_funds` run
is the guard write. -/
theorem release_funds_trace_head (ctx : Ctx) (t : ContractState)
    (id c : Nat) (ht : t.guard = false) :
    (release_funds ctx t id c).trace.head? = some .setGuard := by
  cases hadm : t.admin with
  | none => simp [release_funds, ht, hadm]
  | some adm =>
      by_cases hin : adm ∈ ctx.auths
      · cases hl : lookupEscrow t.escrows id with
        | none => simp [release_funds, ht, hadm, hin, hl]
        | some e =>
            by_cases hst : e.status = EscrowStatus.Locked
            · cases htok : t.token with
              | none => simp [release_funds, ht, hadm, hin, hl, hst, htok]
              | some tok => simp [release_funds, ht, hadm, hin, hl, hst, htok]
            · simp [release_funds, ht, hadm, hin, hl, hst]
      · simp [release_funds, ht, hadm, hin]

/-- When the guard is clear, the first action of every `refund` run is the
guard write. -/
theorem refund_trace_head (ctx : Ctx) (t : ContractState) (id : Nat)
    (ht : t.guard = false) :
    (refund ctx t id).trace.head? = some .setGuard := by
  cases hl : lookupEscrow t.escrows id with
  | none => simp [refund, ht, hl]
  | some e =>
      by_cases hst : e.status = EscrowStatus.Locked
      · by_cases hdl : ctx.now < e.deadline
        · simp [refund, ht, hl, hst, hdl]
        · cases htok : t.token with
          | none => simp [refund, ht, hl, hst, hdl, htok]
          | some tok => simp [refund, ht, hl, hst, hdl, htok]
      · simp [refund, ht, hl, hst]

/-- C8: for each of the three mutating operations, an invocation that finds
the Execution Guard already set aborts with the fatal reentrancy trap — not
with any typed error — and an invocation that finds it clear writes the
guard as its first action and, on normal (`ok`) exit, removes it as its
last action, leaving the flag clear. (For `lock_funds` the depositor's
`require_auth` precedes the guard check, so the depositor is assumed
authenticated.) -/
theorem reentrancy_guard_discipline (ctx : Ctx) (s t : ContractState)
    (dep idL idR c : Nat) (amount : Int) (deadline : Nat)
    (hdep : dep ∈ ctx.auths) (hs : s.guard = true) (ht : t.guard = false) :
    (lock_funds ctx s dep idL amount deadline).outcome = .trap .reentrancy ∧
    (release_funds ctx s idR c).outcome = .trap .reentrancy ∧
    (refund ctx s idR).outcome = .trap .reentrancy ∧
    (lock_funds ctx t dep idL amount deadline).trace.head? = some .setGuard ∧
    (release_funds ctx t idR c).trace.head? = some .setGuard ∧
    (refund ctx t idR).trace.head? = some .setGuard ∧
    ((lock_funds ctx t dep idL amount deadline).outcome = .ok →
      (lock_funds ctx t dep idL amount deadline).trace.getLast?
        = some .removeGuard ∧
      (lock_funds ctx t dep idL amount deadline).state.guard = false) ∧
    ((release_funds ctx t idR c).outcome = .ok →
      (release_funds ctx t idR c).trace.getLast? = some .removeGuard ∧
      (release_funds ctx t idR c).state.guard = false) ∧
    ((refund ctx t idR).outcome = .ok →
      (refund ctx t idR).trace.getLast? = some .removeGuard ∧
      (refund ctx t idR).state.guard = false) := by
  refine ⟨?_, ?_, ?_, ?_, ?_, ?_, ?_, ?_, ?_⟩
  · simp [lock_funds, hdep, hs]
  · simp [release_funds, hs]
  · simp [refund, hs]
  · exact lock_funds_trace_head ctx t dep idL amount deadline hdep ht
  · exact release_funds_trace_head ctx t idR c ht
  · exact refund_trace_head ctx t idR ht
  · intro h
    obtain ⟨-, hstate, htr⟩ := lock_funds_ok_state ctx t dep idL amount deadline h
    exact ⟨by rw [htr]; rfl, by rw [hstate]⟩
  · intro h
    obtain ⟨e, -, -, hstate, htr⟩ := release_funds_ok_state ctx t idR c h
    exact ⟨by rw [htr]; rfl, by rw [hstate]⟩
  · intro h
    obtain ⟨e, -, -, -, hstate, htr⟩ := refund_ok_state ctx t idR h
    exact ⟨by rw [htr]; rfl, by rw [hstate]⟩

/-- Witness for C8: guard-set state `s` makes all three operations trap;
guard-clear state `t` gives a trace starting with the guard write, and all
three operations succeed there, ending with the guard removal. -/
theorem reentrancy_guard_discipline_witness :
    (lock_funds ⟨0, 10, [3, 1]⟩
      ⟨some 1, some 2, [(7, ⟨4, 500, .Locked, 10⟩)], true⟩ 3 9 100 50).outcome
      = .trap .reentrancy ∧
    (release_funds ⟨0, 10, [3, 1]⟩
      ⟨some 1, some 2, [(7, ⟨4, 500, .Locked, 10⟩)], true⟩ 7 5).outcome
      = .trap .reentrancy ∧
    (refund ⟨0, 10, [3, 1]⟩
      ⟨some 1, some 2, [(7, ⟨4, 500, .Locked, 10⟩)], true⟩ 7).outcome
      = .trap .reentrancy ∧
    (lock_funds ⟨0, 10, [3, 1]⟩
      ⟨some 1, some 2, [(7, ⟨4, 500, .Locked, 10⟩)], false⟩ 3 9 100 50).trace.head?
      = some .setGuard ∧
    (release_funds ⟨0, 10, [3, 1]⟩
      ⟨some 1, some 2, [(7, ⟨4, 500, .Locked, 10⟩)], false⟩ 7 5).trace.head?
      = some .setGuard ∧
    (refund ⟨0, 10, [3, 1]⟩
      ⟨some 1, some 2, [(7, ⟨4, 500, .Locked, 10⟩)], false⟩ 7).trace.head?
      = some .setGuard ∧
    ((lock_funds ⟨0, 10, [3, 1]⟩
      ⟨some 1, some 2, [(7, ⟨4, 500, .Locked, 10⟩)], false⟩ 3 9 100 50).outcome = .ok →
      (lock_funds ⟨0, 10, [3, 1]⟩
        ⟨some 1, some 2, [(7, ⟨4, 500, .Locked, 10⟩)], false⟩ 3 9 100 50).trace.getLast?
        = some .removeGuard ∧
      (lock_funds ⟨0, 10, [3, 1]⟩
        ⟨some 1, some 2, [(7, ⟨4, 500, .Locked, 10⟩)], false⟩ 3 9 100 50).state.guard = false) ∧
    ((release_funds ⟨0, 10, [3, 1]⟩
      ⟨some 1, some 2, [(7, ⟨4, 500, .Locked, 10⟩)], false⟩ 7 5).outcome = .ok →
      (release_funds ⟨0, 10, [3, 1]⟩
        ⟨some 1, some 2, [(7, ⟨4, 500, .Locked, 10⟩)], false⟩ 7 5).trace.getLast?
        = some .removeGuard ∧
      (release_funds ⟨0, 10, [3, 1]⟩
        ⟨some 1, some 2, [(7, ⟨4, 500, .Locked, 10⟩)], false⟩ 7 5).state.guard = false) ∧
    ((refund ⟨0, 10, [3, 1]⟩
      ⟨some 1, some 2, [(7, ⟨4, 500, .Locked, 10⟩)], false⟩ 7).outcome = .ok →
      (refund ⟨0, 10, [3, 1]⟩
        ⟨some 1, some 2, [(7, ⟨4, 500, .Locked, 10⟩)], false⟩ 7).trace.getLast?
        = some .removeGuard ∧
      (refund ⟨0, 10, [3, 1]⟩
        ⟨some 1, some 2, [(7, ⟨4, 500, .Locked, 10⟩)], false⟩ 7).state.guard = false) :=
  reentrancy_guard_discipline ⟨0, 10, [3, 1]⟩
    ⟨some 1, some 2, [(7, ⟨4, 500, .Locked, 10⟩)], true⟩
    ⟨some 1, some 2, [(7, ⟨4, 500, .Locked, 10⟩)], false⟩
    3 9 7 5 100 50 (by decide) (by decide) (by decide)

/-- An admin-authorized `release_funds` on a record that is not `Locked`
fails with `FundsNotLocked` and commits nothing. -/
theorem release_funds_tx_not_locked (ctx : Ctx) (s : ContractState)
    (id c adm : Nat) (e : Escrow) (hg : s.guard = false)
    (hadm : s.admin = some adm) (hauth : adm ∈ ctx.auths)
    (hl : lookupEscrow s.escrows id = some e)
    (hst : e.status ≠ .Locked) :
    release_funds_tx ctx s id c = (.err .FundsNotLocked, s) := by
  unfold release_funds_tx release_funds commit
  simp [hg, hadm, hauth, hl, hst]

/-- A `refund` on a record that is not `Locked` fails with `FundsNotLocked`
and commits nothing. -/
theorem refund_tx_not_locked (ctx : Ctx) (s : ContractState) (id : Nat)
    (e : Escrow) (hg : s.guard = false)
    (hl : lookupEscrow s.escrows id = some e)
    (hst : e.status ≠ .Locked) :
    refund_tx ctx s id = (.err .FundsNotLocked, s) := by
  unfold refund_tx refund commit
  simp [hg, hl, hst]

/-- C2: once an obligation's record has left `Locked` through a successful
`release_funds` or `refund`, every subsequent admin-authorized
`release_funds` and every subsequent `refund` on that obligation id fails
with `FundsNotLocked` and commits nothing, and no sequence of further
committed invocations ever writes that record again: at most one payout per
obligation, ever. -/
theorem no_double_payout (ctx₀ ctx₁ ctx₂ : Ctx) (s₀ s₁ : ContractState)
    (id c₀ c adm : Nat)
    (hfirst : release_funds_tx ctx₀ s₀ id c₀ = (.ok, s₁) ∨
              refund_tx ctx₀ s₀ id = (.ok, s₁))
    (hadm : s₁.admin = some adm) (hauth : adm ∈ ctx₁.auths) :
    release_funds_tx ctx₁ s₁ id c = (.err .FundsNotLocked, s₁) ∧
    refund_tx ctx₂ s₁ id = (.err .FundsNotLocked, s₁) ∧
    ∀ ops : List Op, lookupEscrow ((ops.foldl applyOp s₁)).escrows id
      = lookupEscrow s₁.escrows id := by
  have hpost : s₁.guard = false ∧
      ∃ e₁, lookupEscrow s₁.escrows id = some e₁ ∧ e₁.status ≠ .Locked := by
    rcases hfirst with h | h
    · rw [release_funds_tx] at h
      by_cases ho : (release_funds ctx₀ s₀ id c₀).outcome = .ok
      · rw [commit_ok _ _ ho] at h
        have h2 : (release_funds ctx₀ s₀ id c₀).state = s₁ := congrArg Prod.snd h
        obtain ⟨e, hl, hst, hstate, -⟩ := release_funds_ok_state ctx₀ s₀ id c₀ ho
        rw [hstate] at h2
        refine ⟨by rw [← h2], { e with status := .Released }, ?_, by simp⟩
        rw [← h2]
        exact lookupEscrow_storeEscrow_self _ _ _
      · rw [commit_not_ok _ _ ho] at h
        exact absurd (congrArg Prod.fst h) ho
    · rw [refund_tx] at h
      by_cases ho : (refund ctx₀ s₀ id).outcome = .ok
      · rw [commit_ok _ _ ho] at h
        have h2 : (refund ctx₀ s₀ id).state = s₁ := congrArg Prod.snd h
        obtain ⟨e, hl, hst, -, hstate, -⟩ := refund_ok_state ctx₀ s₀ id ho
        rw [hstate] at h2
        refine ⟨by rw [← h2], { e with status := .Refunded }, ?_, by simp⟩
        rw [← h2]
        exact lookupEscrow_storeEscrow_self _ _ _
      · rw [commit_not_ok _ _ ho] at h
        exact absurd (congrArg Prod.fst h) ho
  obtain ⟨hg₁, e₁, hl₁, hst₁⟩ := hpost
  refine ⟨release_funds_tx_not_locked ctx₁ s₁ id c adm e₁ hg₁ hadm hauth hl₁ hst₁,
          refund_tx_not_locked ctx₂ s₁ id e₁ hg₁ hl₁ hst₁, ?_⟩
  intro ops
  rw [terminal_record_stable_fold s₁ id e₁ hl₁ hst₁ ops, hl₁]

/-- Witness for C2: obligation 7 is released, then a second release and a
refund both fail `FundsNotLocked`, and a further refund invocation leaves
the record untouched. -/
theorem no_double_payout_witness :
    release_funds_tx ⟨0, 10, [1]⟩
      ⟨some 1, some 2, [(7, ⟨4, 500, .Released, 10⟩)], false⟩ 7 6
      = (.err .FundsNotLocked,
         ⟨some 1, some 2, [(7, ⟨4, 500, .Released, 10⟩)], false⟩) ∧
    refund_tx ⟨0, 99, []⟩
      ⟨some 1, some 2, [(7, ⟨4, 500, .Released, 10⟩)], false⟩ 7
      = (.err .FundsNotLocked,
         ⟨some 1, some 2, [(7, ⟨4, 500, .Released, 10⟩)], false⟩) ∧
    lookupEscrow (([Op.opRefund ⟨0, 99, []⟩ 7].foldl applyOp
        ⟨some 1, some 2, [(7, ⟨4, 500, .Released, 10⟩)], false⟩)).escrows 7
      = lookupEscrow
          (⟨some 1, some 2, [(7, ⟨4, 500, .Released, 10⟩)], false⟩
            : ContractState).escrows 7 := by
  have h := no_double_payout ⟨0, 10, [1]⟩ ⟨0, 10, [1]⟩ ⟨0, 99, []⟩
    ⟨some 1, some 2, [(7, ⟨4, 500, .Locked, 10⟩)], false⟩
    ⟨some 1, some 2, [(7, ⟨4, 500, .Released, 10⟩)], false⟩
    7 5 6 1 (Or.inl (by decide)) (by decide) (by decide)
  exact ⟨h.1, h.2.1, h.2.2 [Op.opRefund ⟨0, 99, []⟩ 7]⟩

end BountyEscrow

namespace ProgramEscrow

/-- C9: for a program aggregate with remaining balance `R` and a batch
whose per-entry amounts are each positive and sum to `S`, with matching
non-empty recipient and amount lists: if `S ≤ R` the batch payout succeeds
and the post-state aggregate is the input aggregate with remaining balance
`R - S` (all other fields untouched); if `S > R` (aggregate `q`) the call
fails and no aggregate is produced, so the caller's balance is unchanged —
all-or-nothing. -/
theorem batch_payout_balance (p q : ProgramAggregate)
    (rcpts : List Nat) (amts : List Int)
    (hlen : rcpts.length = amts.length) (hne : rcpts ≠ [])
    (hpos : ∀ a ∈ amts, 0 < a)
    (hle : sumAmounts amts ≤ p.remainingBalance)
    (hgt : q.remainingBalance < sumAmounts amts) :
    batch_payout p rcpts amts
      = .ok { p with remainingBalance := p.remainingBalance - sumAmounts amts } ∧
    batch_payout q rcpts amts = .error .insufficientBalance := by
  have hemp : rcpts.isEmpty = false := by
    cases rcpts with
    | nil => exact absurd rfl hne
    | cons r rs => rfl
  have hany : amts.any (· ≤ 0) = false := by
    rw [List.any_eq_false]
    intro a ha
    simpa using not_le.mpr (hpos a ha)
  unfold batch_payout
  simp [hlen, hemp, hany, not_lt.mpr hle, hgt]

/-- Witness for C9: balance 100 pays out 2 + 3; balance 4 cannot. -/
theorem batch_payout_balance_witness :
    batch_payout ⟨"p", 1, 2, 100, 100⟩ [8, 9] [2, 3]
      = .ok ⟨"p", 1, 2, 100, 95⟩ ∧
    batch_payout ⟨"p", 1, 2, 4, 4⟩ [8, 9] [2, 3]
      = .error .insufficientBalance :=
  batch_payout_balance ⟨"p", 1, 2, 100, 100⟩ ⟨"p", 1, 2, 4, 4⟩ [8, 9] [2, 3]
    (by decide) (by decide) (by decide) (by decide) (by decide)

end ProgramEscrow
